import Mathlib

/-!
Verification of the webhook receiver (`app.py`).

The development shallowly embeds the three cores of the program:

* `verify_signature` — GitHub `X-Hub-Signature` check: HMAC-SHA1 over the raw
  body with the configured secret, compared against a `sha1=<hex>` header.
  Bytes are `List Nat` (each `< 256` where produced), header strings are
  `List Char`, 32-bit arithmetic is `Nat` with explicit `% 2^32`.
* `format_timestamp` — ISO-8601 timestamp to `"5th June 2025 - 01:15 AM UTC"`
  style rendering, converting the parsed instant to UTC first.  Python's
  `datetime.fromisoformat` (CPython 3.10 semantics, the subset reachable
  here: `YYYY-MM-DD`, optional single separator char, `HH:MM[:SS]`, optional
  `±HH:MM` offset) is embedded as `fromisoformat`; a naive result carries
  `offset = none` and `astimezone(timezone.utc)` then uses the host's local
  offset, which the embedding passes explicitly as `localOff` (minutes east
  of UTC).
* `handle_webhook` — the `/webhook` route body after JSON parsing: event
  classification, required-field extraction with Python's exception
  semantics (`KeyError` vs `TypeError` vs `AttributeError`), formatting and
  the single store insert.  The inserted document's `inserted_at` field is
  wall-clock time and is not modelled; a stored outcome carries the
  `formatted` string, which is the store write.

Exceptions are values: `Except PyErr` for subscript/attribute errors,
`Option` for `format_timestamp` (a `none` is the `ValueError`/
`AttributeError` raised inside it, which the route catches with
`except Exception`).  Only `KeyError` is caught by the route's
`except KeyError` handlers; any other error value surfaces as
`WebhookResult.uncaught`.
-/

set_option maxRecDepth 100000

/-! ## Python string helpers -/

/-- Python `str.split(sep)` for a one-character separator: split on every
occurrence, keeping empty pieces (`"".split(sep) == [""]`). -/
def splitOnChar (c : Char) : List Char → List (List Char)
  | [] => [[]]
  | x :: xs =>
    let r := splitOnChar c xs
    if x = c then [] :: r
    else
      match r with
      | [] => [[x]]
      | y :: ys => (x :: y) :: ys

/-- Python `str.replace("Z", "+00:00")` (replaces every occurrence). -/
def replaceZ : List Char → List Char
  | [] => []
  | c :: cs =>
    if c = 'Z' then '+' :: '0' :: '0' :: ':' :: '0' :: '0' :: replaceZ cs
    else c :: replaceZ cs

/-! ## SHA-1 and HMAC-SHA1 over byte lists -/

/-- Truncate to a 32-bit word. -/
def w32 (n : Nat) : Nat := n % 4294967296

/-- 32-bit rotate left by `k` of a word `n < 2^32`. -/
def rotl (k n : Nat) : Nat := w32 ((n <<< k) ||| (n >>> (32 - k)))

/-- Big-endian 8-byte encoding of `n` (the 64-bit message bit length). -/
def bytesBE8 (n : Nat) : List Nat :=
  [n >>> 56 % 256, n >>> 48 % 256, n >>> 40 % 256, n >>> 32 % 256,
   n >>> 24 % 256, n >>> 16 % 256, n >>> 8 % 256, n % 256]

/-- Big-endian 4-byte encoding of a 32-bit word. -/
def bytesBE4 (n : Nat) : List Nat :=
  [n >>> 24 % 256, n >>> 16 % 256, n >>> 8 % 256, n % 256]

/-- SHA-1 padding: append `0x80`, zero bytes to 56 mod 64, then the 64-bit
big-endian bit length. -/
def sha1pad (msg : List Nat) : List Nat :=
  msg ++ 128 :: List.replicate ((119 - msg.length % 64) % 64) 0
      ++ bytesBE8 (8 * msg.length)

/-- Group bytes into big-endian 32-bit words. -/
def toWords : List Nat → List Nat
  | a :: b :: c :: d :: rest => (((a * 256 + b) * 256 + c) * 256 + d) :: toWords rest
  | _ => []

/-- Message-schedule extension: run `k` more steps of
`w[i] = rotl1 (w[i-3] xor w[i-8] xor w[i-14] xor w[i-16])`. -/
def extendLoop : Nat → Array Nat → Array Nat
  | 0, w => w
  | k + 1, w =>
    let i := w.size
    extendLoop k (w.push (rotl 1 (w.getD (i - 3) 0 ^^^ w.getD (i - 8) 0 ^^^
                                  w.getD (i - 14) 0 ^^^ w.getD (i - 16) 0)))

/-- One SHA-1 compression round `t` (0-based) on state `(a,b,c,d,e)` with
schedule word `wt`. -/
def sha1Round (t : Nat) (st : Nat × Nat × Nat × Nat × Nat) (wt : Nat) :
    Nat × Nat × Nat × Nat × Nat :=
  let (a, b, c, d, e) := st
  let f :=
    if t < 20 then (b &&& c) ||| ((4294967295 ^^^ b) &&& d)
    else if t < 40 then b ^^^ c ^^^ d
    else if t < 60 then (b &&& c) ||| (b &&& d) ||| (c &&& d)
    else b ^^^ c ^^^ d
  let k :=
    if t < 20 then 1518500249
    else if t < 40 then 1859775393
    else if t < 60 then 2400959708
    else 3395469782
  let temp := w32 (rotl 5 a + f + e + k + wt)
  (temp, a, rotl 30 b, c, d)

/-- Process one 64-byte chunk, updating the five-word state. -/
def sha1Chunk (h : Nat × Nat × Nat × Nat × Nat) (chunk : List Nat) :
    Nat × Nat × Nat × Nat × Nat :=
  let sched := extendLoop 64 (Array.mk (toWords chunk))
  let (h0, h1, h2, h3, h4) := h
  let (a, b, c, d, e) :=
    sched.toList.enum.foldl (fun st p => sha1Round p.1 st p.2) (h0, h1, h2, h3, h4)
  (w32 (h0 + a), w32 (h1 + b), w32 (h2 + c), w32 (h3 + d), w32 (h4 + e))

/-- Split a byte list into consecutive 64-byte chunks (structural recursion
on a fuel bound so the definition reduces in the kernel; `l.length` steps is
always enough fuel, each step consuming 64 bytes). -/
def chunks64Fuel : Nat → List Nat → List (List Nat)
  | 0, _ => []
  | _ + 1, [] => []
  | n + 1, l => l.take 64 :: chunks64Fuel n (l.drop 64)

/-- Split a byte list into consecutive 64-byte chunks. -/
def chunks64 (l : List Nat) : List (List Nat) := chunks64Fuel l.length l

/-- SHA-1 of a byte list, as 20 digest bytes. -/
def sha1Bytes (msg : List Nat) : List Nat :=
  let (h0, h1, h2, h3, h4) :=
    (chunks64 (sha1pad msg)).foldl sha1Chunk
      (1732584193, 4023233417, 2562383102, 271733878, 3285377520)
  bytesBE4 h0 ++ bytesBE4 h1 ++ bytesBE4 h2 ++ bytesBE4 h3 ++ bytesBE4 h4

/-- HMAC-SHA1 (`hmac.new(key, msg, hashlib.sha1)`): block size 64, long keys
hashed first, inner pad `0x36`, outer pad `0x5c`. -/
def hmacSha1 (key msg : List Nat) : List Nat :=
  let k0 := if 64 < key.length then sha1Bytes key else key
  let k := k0 ++ List.replicate (64 - k0.length) 0
  sha1Bytes (k.map (fun b => b ^^^ 92) ++ sha1Bytes (k.map (fun b => b ^^^ 54) ++ msg))

/-- Lower-case hex digit of `n % 16`. -/
def hexChar (n : Nat) : Char :=
  match n % 16 with
  | 0 => '0' | 1 => '1' | 2 => '2' | 3 => '3' | 4 => '4' | 5 => '5'
  | 6 => '6' | 7 => '7' | 8 => '8' | 9 => '9' | 10 => 'a' | 11 => 'b'
  | 12 => 'c' | 13 => 'd' | 14 => 'e' | _ => 'f'

/-- Two hex digits of one byte. -/
def hexByte (b : Nat) : List Char := [hexChar (b / 16), hexChar b]

/-- Python `.hexdigest()`: lower-case hex rendering of a byte list. -/
def hexdigest (bs : List Nat) : List Char := (bs.map hexByte).flatten

/-- The function `verify_signature(payload_bytes, signature_header)` of `app.py`, with
the module-global `SECRET_TOKEN` passed explicitly as its UTF-8 bytes
(`SECRET_TOKEN.encode()`); the header is `None` (absent) or its characters.

Mirrors the source line by line: the `not SECRET_TOKEN or not
signature_header` skip, the `split("=")` two-element unpacking whose
`ValueError` is caught and returns `False`, the `sha1` tag check, and
`hmac.compare_digest(mac.hexdigest(), signature)` — constant-time string
equality, modelled as equality. -/
def verify_signature (secretToken : List Nat) (payload_bytes : List Nat)
    (signature_header : Option (List Char)) : Bool :=
  if secretToken.isEmpty then true
  else
    match signature_header with
    | none => true
    | some hdr =>
      if hdr.isEmpty then true
      else
        match splitOnChar '=' hdr with
        | [sha_name, signature] =>
          if sha_name = "sha1".toList then
            decide (hexdigest (hmacSha1 secretToken payload_bytes) = signature)
          else false
        | _ => false

example :
    hexdigest (hmacSha1 ("key".toList.map Char.toNat)
      ("The quick brown fox jumps over the lazy dog".toList.map Char.toNat))
      = "de7c9b85b8b78aa6bc8a7a36f70a90701c9db4d9".toList := by decide

/-! ## The timestamp normalizer -/

/-- A parsed `datetime`: civil fields plus `offset`, the `tzinfo` utcoffset
in minutes (`none` = naive datetime). -/
structure PyDatetime where
  year : Nat
  month : Nat
  day : Nat
  hour : Nat
  minute : Nat
  second : Nat
  offset : Option Int
deriving DecidableEq, Repr

/-- Read two ASCII digits. -/
def d2 : List Char → Option (Nat × List Char)
  | a :: b :: rest =>
    if a.isDigit && b.isDigit then
      some ((a.toNat - 48) * 10 + (b.toNat - 48), rest)
    else none
  | _ => none

/-- Read four ASCII digits. -/
def d4 : List Char → Option (Nat × List Char)
  | a :: b :: c :: d :: rest =>
    if a.isDigit && b.isDigit && c.isDigit && d.isDigit then
      some ((((a.toNat - 48) * 10 + (b.toNat - 48)) * 10 + (c.toNat - 48)) * 10
              + (d.toNat - 48), rest)
    else none
  | _ => none

/-- Gregorian leap year. -/
def isLeap (y : Nat) : Bool := y % 4 = 0 && (y % 100 != 0 || y % 400 = 0)

/-- Days in a month. -/
def daysInMonth (y m : Nat) : Nat :=
  if m = 2 then (if isLeap y then 29 else 28)
  else if m = 4 ∨ m = 6 ∨ m = 9 ∨ m = 11 then 30
  else 31

/-- Field validation of `datetime` (`MINYEAR = 1`; four parsed digits bound
the year by 9999). -/
def validDate (y m d : Nat) : Bool :=
  1 ≤ y && 1 ≤ m && m ≤ 12 && 1 ≤ d && d ≤ daysInMonth y m

/-- Parse the trailing `±HH:MM` offset (empty input = naive); the resulting
`timezone` requires an offset strictly within 24 hours. -/
def parseOffsetPart : List Char → Option (Option Int)
  | [] => some none
  | sign :: rest =>
    if sign = '+' ∨ sign = '-' then
      match d2 rest with
      | some (th, ':' :: rest2) =>
        match d2 rest2 with
        | some (tm, []) =>
          if tm ≤ 59 && th * 60 + tm < 1440 then
            some (some (if sign = '+' then (th * 60 + tm : Int) else -(th * 60 + tm : Int)))
          else none
        | _ => none
      | _ => none
    else none

/-- Parse the time-of-day part `HH[:MM[:SS]]` plus optional offset. -/
def parseTimePart (y mo d : Nat) (t : List Char) : Option PyDatetime :=
  match d2 t with
  | none => none
  | some (h, rest) =>
    let assemble := fun (mi se : Nat) (tz : List Char) =>
      if h ≤ 23 && mi ≤ 59 && se ≤ 59 then
        match parseOffsetPart tz with
        | some off => some ⟨y, mo, d, h, mi, se, off⟩
        | none => none
      else none
    match rest with
    | ':' :: r2 =>
      match d2 r2 with
      | none => none
      | some (mi, rest2) =>
        match rest2 with
        | ':' :: r3 =>
          match d2 r3 with
          | none => none
          | some (se, rest3) => assemble mi se rest3
        | _ => assemble mi 0 rest2
    | _ => assemble 0 0 rest

/-- Parser `datetime.fromisoformat` (CPython 3.10): ten-character date, then
optionally one separator character (any character) and the time part.
Subset embedded: no fractional seconds, offsets only as `±HH:MM`. -/
def fromisoformat (s : List Char) : Option PyDatetime :=
  match d4 s with
  | some (y, '-' :: r1) =>
    match d2 r1 with
    | some (mo, '-' :: r2) =>
      match d2 r2 with
      | some (d, rest) =>
        if validDate y mo d then
          match rest with
          | [] => some ⟨y, mo, d, 0, 0, 0, none⟩
          | _ :: tstr => parseTimePart y mo d tstr
        else none
      | _ => none
    | _ => none
  | _ => none

/-- Days since 1970-01-01 of a civil date (valid Gregorian input,
`year ≥ 1`). -/
def daysFromCivil (y m d : Nat) : Int :=
  let yd := if m ≤ 2 then y - 1 else y
  let era := yd / 400
  let yoe := yd - era * 400
  let mp := (m + 9) % 12
  let doy := (153 * mp + 2) / 5 + d - 1
  let doe := yoe * 365 + yoe / 4 - yoe / 100 + doy
  (era : Int) * 146097 + (doe : Int) - 719468

/-- Civil date of a count of days since 1970-01-01. -/
def civilFromDays (z : Int) : Int × Nat × Nat :=
  let zs := z + 719468
  let era := zs.ediv 146097
  let doe := (zs.emod 146097).toNat
  let yoe := (doe - doe / 1460 + doe / 36524 - doe / 146096) / 365
  let doy := doe - (365 * yoe + yoe / 4 - yoe / 100)
  let mp := (5 * doy + 2) / 153
  let d := doy - (153 * mp + 2) / 5 + 1
  let m := if mp < 10 then mp + 3 else mp - 9
  (era * 400 + (yoe : Int) + (if m ≤ 2 then 1 else 0), m, d)

/-- Conversion `dt.astimezone(timezone.utc)` as far as the rendering needs it:
`(year, month, day, hour, minute)` of the UTC instant.  A naive datetime is
presumed to be in the system timezone, whose offset (`localOff`, minutes
east of UTC) the embedding receives explicitly. -/
def toUTCparts (dt : PyDatetime) (localOff : Int) : Int × Nat × Nat × Nat × Nat :=
  let off := dt.offset.getD localOff
  let total : Int :=
    daysFromCivil dt.year dt.month dt.day * 1440 + dt.hour * 60 + dt.minute - off
  let rem := (total.emod 1440).toNat
  let (y, m, d) := civilFromDays (total.ediv 1440)
  (y, m, d, rem / 60, rem % 60)

/-- Month names for `strftime`'s `%B`. -/
def monthName : Nat → String
  | 1 => "January" | 2 => "February" | 3 => "March" | 4 => "April"
  | 5 => "May" | 6 => "June" | 7 => "July" | 8 => "August"
  | 9 => "September" | 10 => "October" | 11 => "November" | 12 => "December"
  | _ => ""

/-- Zero-padded two-digit rendering. -/
def pad2 (n : Nat) : String := if n < 10 then "0" ++ toString n else toString n

/-- The ordinal-suffix computation of `format_timestamp`: days 11–13 get
`"th"`, otherwise the `{1: "st", 2: "nd", 3: "rd"}.get(day % 10, "th")`
lookup. -/
def ordSuffix (day : Nat) : String :=
  if 11 ≤ day ∧ day ≤ 13 then "th"
  else
    match day % 10 with
    | 1 => "st"
    | 2 => "nd"
    | 3 => "rd"
    | _ => "th"

/-- Rendering `strftime("%B %Y - %I:%M %p UTC")` on the UTC fields: full month name,
year, zero-padded 12-hour clock (`%I`), zero-padded minute, `AM`/`PM`. -/
def strftimeRest (y : Int) (mo h mi : Nat) : String :=
  monthName mo ++ " " ++ toString y ++ " - "
    ++ pad2 (if h % 12 = 0 then 12 else h % 12) ++ ":" ++ pad2 mi ++ " "
    ++ (if h < 12 then "AM" else "PM") ++ " UTC"

/-- Check `iso_ts.endswith("Z")` then `replace("Z", "+00:00")`, as in the source. -/
def fixZ (s : List Char) : List Char :=
  if s.getLast? = some 'Z' then replaceZ s else s

/-- The function `format_timestamp(iso_ts)` of `app.py`: fix a trailing `Z`, parse with
`fromisoformat`, convert to UTC, then `f"{day}{suffix} {rest}"`.  `none` is
the `ValueError` a failed parse raises. -/
def format_timestamp (localOff : Int) (iso_ts : List Char) : Option String :=
  match fromisoformat (fixZ iso_ts) with
  | none => none
  | some dt =>
    let (y, mo, d, h, mi) := toUTCparts dt localOff
    some (toString d ++ ordSuffix d ++ " " ++ strftimeRest y mo h mi)

example : format_timestamp 0 "2025-06-05T01:15:53Z".toList
    = some "5th June 2025 - 01:15 AM UTC" := by decide
example : format_timestamp 77 "2025-01-21T13:05:00+05:30".toList
    = some "21st January 2025 - 07:35 AM UTC" := by decide
example : format_timestamp 0 "2021-04-01T21:30:00Z".toList
    = some "1st April 2021 - 09:30 PM UTC" := by decide
example : format_timestamp 0 "2024-02-29T23:59:00-01:30".toList
    = some "1st March 2024 - 01:29 AM UTC" := by decide
example : format_timestamp 0 "2024-13-01T00:00:00Z".toList = none := by decide
example : format_timestamp (-330) "2025-06-05T01:15:53".toList
    = some "5th June 2025 - 06:45 AM UTC" := by decide

/-! ## The webhook handler -/

/-- A parsed JSON payload (`request.get_json`): Python `None`, `bool`,
numbers (embedded as integers — no claim involves fractional numbers),
`str`, `list`, `dict`. -/
inductive Json where
  | null
  | jbool (b : Bool)
  | jnum (n : Int)
  | jstr (s : String)
  | jarr (xs : List Json)
  | jobj (fields : List (String × Json))

/-- The Python exceptions the handler's code can raise. -/
inductive PyErr where
  | keyError
  | typeError
  | attributeError
deriving DecidableEq, Repr

/-- Value of the last binding of key `k` (Python dicts built by `json.loads`
keep the last duplicate). -/
def lookupLast (k : String) : List (String × Json) → Option Json
  | [] => none
  | (k1, v) :: rest =>
    match lookupLast k rest with
    | some r => some r
    | none => if k1 = k then some v else none

/-- Python subscript `v[k]` with a string key: `KeyError` on a dict without
the key, `TypeError` on anything that is not a dict (`str`/`list` reject
string indices; scalars are not subscriptable). -/
def pyGetItem (v : Json) (k : String) : Except PyErr Json :=
  match v with
  | .jobj fs =>
    match lookupLast k fs with
    | some r => .ok r
    | none => .error .keyError
  | _ => .error .typeError

/-- Python `v.get(k, dflt)`: only dicts have `.get`; anything else raises
`AttributeError`. -/
def pyGet (v : Json) (k : String) (dflt : Json) : Except PyErr Json :=
  match v with
  | .jobj fs => .ok ((lookupLast k fs).getD dflt)
  | _ => .error .attributeError

/-- Python truthiness of a JSON value. -/
def pyTruthy : Json → Bool
  | .null => false
  | .jbool b => b
  | .jnum n => decide (n ≠ 0)
  | .jstr s => decide (s ≠ "")
  | .jarr xs => !xs.isEmpty
  | .jobj fs => !fs.isEmpty

/-- Python `v == "lit"`: true only for the equal string, false for every
other value (no exception). -/
def jEqStr (v : Json) (lit : String) : Bool :=
  match v with
  | .jstr s => s = lit
  | _ => false

/-- f-string interpolation `str(v)`.  Scalars are exact
(`str(True) == "True"`, `str(None) == "None"`); container reprs are
abbreviated — no claim formats a container. -/
def pyFormatVal : Json → String
  | .jstr s => s
  | .jnum n => toString n
  | .jbool true => "True"
  | .jbool false => "False"
  | .null => "None"
  | .jarr _ => "[...]"
  | .jobj _ => "\x7b...\x7d"

/-- Model of `ref.split("/")[-1]`: `.split` exists only on `str`
(`AttributeError` otherwise); a split on `"/"` is never empty, `[-1]` is its
last element. -/
def lastSegment (s : String) : String :=
  ((splitOnChar '/' s.toList).getLastD []).asString

/-- The four `try` assignments of the push branch, in source order:
`payload["pusher"]["name"]`, `payload["ref"]`, `ref.split("/")[-1]`
(raises `AttributeError` inside the same `try` when `ref` is not a string),
then `payload["head_commit"]["timestamp"]`. -/
def pushExtract (payload : Json) : Except PyErr (Json × String × Json) :=
  match pyGetItem payload "pusher" with
  | .error e => .error e
  | .ok pusher =>
    match pyGetItem pusher "name" with
    | .error e => .error e
    | .ok author =>
      match pyGetItem payload "ref" with
      | .error e => .error e
      | .ok refv =>
        match refv with
        | .jstr refStr =>
          match pyGetItem payload "head_commit" with
          | .error e => .error e
          | .ok hc =>
            match pyGetItem hc "timestamp" with
            | .error e => .error e
            | .ok ts => .ok (author, lastSegment refStr, ts)
        | _ => .error .attributeError

/-- The four `try` assignments shared by both pull-request branches:
`pr["user"]["login"]`, `pr["head"]["ref"]`, `pr["base"]["ref"]`, then the
timestamp key (`"created_at"` for opened, `"merged_at"` for merged). -/
def prExtract (pr : Json) (tsKey : String) :
    Except PyErr (Json × Json × Json × Json) :=
  match pyGetItem pr "user" with
  | .error e => .error e
  | .ok user =>
    match pyGetItem user "login" with
    | .error e => .error e
    | .ok author =>
      match pyGetItem pr "head" with
      | .error e => .error e
      | .ok head =>
        match pyGetItem head "ref" with
        | .error e => .error e
        | .ok fromB =>
          match pyGetItem pr "base" with
          | .error e => .error e
          | .ok base =>
            match pyGetItem base "ref" with
            | .error e => .error e
            | .ok toB =>
              match pyGetItem pr tsKey with
              | .error e => .error e
              | .ok ts => .ok (author, fromB, toB, ts)

/-- Call of `format_timestamp(ts)` on a payload value, under the route's
`except Exception`: a non-string raises `AttributeError` at
`iso_ts.endswith`, an unparseable string raises `ValueError`; both are
caught, so both are `none` here. -/
def tsFormat (localOff : Int) : Json → Option String
  | .jstr s => format_timestamp localOff s.toList
  | _ => none

/-- The push-branch f-string
`f"\"{author}\" pushed to \"{to_branch}\" on {format_timestamp(ts)}"`. -/
def pushMsg (author branch ts : String) : String :=
  "\"" ++ author ++ "\" pushed to \"" ++ branch ++ "\" on " ++ ts

/-- The opened-branch f-string. -/
def openedMsg (author fromB toB ts : String) : String :=
  "\"" ++ author ++ "\" submitted a pull request from \"" ++ fromB
    ++ "\" to \"" ++ toB ++ "\" on " ++ ts

/-- The merged-branch f-string. -/
def mergedMsg (author fromB toB ts : String) : String :=
  "\"" ++ author ++ "\" merged branch \"" ++ fromB ++ "\" to \"" ++ toB
    ++ "\" on " ++ ts

/-- Outcome of one `/webhook` delivery.  `forbidden` is the 403 abort,
`noJsonPayload` the 400, the `ignored…`/`errorFormatting` variants the 200
JSON statuses, `stored` the 201 after `collection.insert_one` (carrying the
inserted document's `formatted` field — the only store write), and
`uncaught e` an exception the route does not catch (Flask's 500). -/
inductive WebhookResult where
  | forbidden
  | noJsonPayload
  | ignoredKeyError
  | ignoredPullAction
  | ignoredEvent
  | errorFormatting
  | stored (formatted : String)
  | uncaught (e : PyErr)
deriving DecidableEq, Repr

/-- The route body `handle_webhook` of `app.py`, after the HTTP layer: `secret` is
`SECRET_TOKEN.encode()`, `body` is `request.data`, `sig` the
`X-Hub-Signature` header, `eventHeader` the `X-GitHub-Event` header
(`.get(…, "")` default), `payload` the `request.get_json(silent=True)`
result, and `localOff` the host timezone offset threaded to
`format_timestamp` for naive timestamps. -/
def handle_webhook (secret : List Nat) (localOff : Int) (body : List Nat)
    (sig : Option (List Char)) (eventHeader : Option String)
    (payload : Option Json) : WebhookResult :=
  if verify_signature secret body sig then
    match payload with
    | none => .noJsonPayload
    | some payload =>
      if eventHeader.getD "" = "push" then
        match pushExtract payload with
        | .error .keyError => .ignoredKeyError
        | .error e => .uncaught e
        | .ok (author, branch, tsv) =>
          match tsFormat localOff tsv with
          | none => .errorFormatting
          | some t => .stored (pushMsg (pyFormatVal author) branch t)
      else if eventHeader.getD "" = "pull_request" then
        match pyGet payload "action" (.jstr "") with
        | .error e => .uncaught e
        | .ok action =>
          match pyGet payload "pull_request" (.jobj []) with
          | .error e => .uncaught e
          | .ok pr =>
            if jEqStr action "opened" then
              match prExtract pr "created_at" with
              | .error .keyError => .ignoredKeyError
              | .error e => .uncaught e
              | .ok (author, fromB, toB, tsv) =>
                match tsFormat localOff tsv with
                | none => .errorFormatting
                | some t =>
                  .stored (openedMsg (pyFormatVal author) (pyFormatVal fromB)
                    (pyFormatVal toB) t)
            else if jEqStr action "closed" then
              match pyGet pr "merged" (.jbool false) with
              | .error e => .uncaught e
              | .ok merged =>
                if pyTruthy merged then
                  match prExtract pr "merged_at" with
                  | .error .keyError => .ignoredKeyError
                  | .error e => .uncaught e
                  | .ok (author, fromB, toB, tsv) =>
                    match tsFormat localOff tsv with
                    | none => .errorFormatting
                    | some t =>
                      .stored (mergedMsg (pyFormatVal author) (pyFormatVal fromB)
                        (pyFormatVal toB) t)
                else .ignoredPullAction
            else .ignoredPullAction
      else .ignoredEvent
  else .forbidden

/-- The push payload of the spec's worked example. -/
def pushPayloadEx : Json :=
  .jobj [("pusher", .jobj [("name", .jstr "alice")]),
         ("ref", .jstr "refs/heads/main"),
         ("head_commit", .jobj [("timestamp", .jstr "2021-04-01T21:30:00Z")])]

example :
    handle_webhook [] 0 [] none (some "push") (some pushPayloadEx)
      = .stored "\"alice\" pushed to \"main\" on 1st April 2021 - 09:30 PM UTC" := by
  rfl

/-! ## Helper lemmas -/

theorem splitOnChar_ne_nil (c : Char) (s : List Char) : splitOnChar c s ≠ [] := by
  cases s with
  | nil => simp [splitOnChar]
  | cons x xs =>
    simp only [splitOnChar]
    split
    · simp
    · split <;> simp

theorem splitOnChar_of_not_mem (c : Char) (s : List Char) (h : c ∉ s) :
    splitOnChar c s = [s] := by
  induction s with
  | nil => rfl
  | cons x xs ih =>
    simp only [List.mem_cons, not_or] at h
    simp only [splitOnChar]
    rw [if_neg (fun hh => h.1 hh.symm), ih h.2]

theorem splitOnChar_append (c : Char) (a b : List Char) (ha : c ∉ a) :
    splitOnChar c (a ++ c :: b) = a :: splitOnChar c b := by
  induction a with
  | nil => simp [splitOnChar]
  | cons x xs ih =>
    simp only [List.mem_cons, not_or] at ha
    have hxs := ih ha.2
    simp only [List.cons_append, splitOnChar, List.append_eq, hxs]
    rw [if_neg (fun hh => ha.1 hh.symm)]

theorem hexChar_ne (n : Nat) : hexChar n ≠ '=' := by
  have h : n % 16 < 16 := Nat.mod_lt n (by norm_num)
  unfold hexChar
  generalize n % 16 = m at h ⊢
  interval_cases m <;> decide

theorem hexdigest_no_eq (bs : List Nat) : '=' ∉ hexdigest bs := by
  intro h
  simp only [hexdigest, List.mem_flatten, List.mem_map] at h
  obtain ⟨l, ⟨b, _, rfl⟩, hmem⟩ := h
  simp only [hexByte, List.mem_cons, List.not_mem_nil, or_false] at hmem
  rcases hmem with h | h
  · exact hexChar_ne _ h.symm
  · exact hexChar_ne _ h.symm

theorem split_sha1_header (digest : List Char) (h : '=' ∉ digest) :
    splitOnChar '=' ("sha1=".toList ++ digest) = ["sha1".toList, digest] := by
  have heq : "sha1=".toList ++ digest = "sha1".toList ++ '=' :: digest := rfl
  rw [heq, splitOnChar_append '=' _ _ (by decide), splitOnChar_of_not_mem '=' _ h]

/-- Evaluation of `verify_signature` on a well-formed `sha1=<hex>` header
with a non-empty secret: it is exactly the digest comparison. -/
theorem verify_signature_eval (secret payload : List Nat) (hex : List Char)
    (hs : secret ≠ []) (hh : '=' ∉ hex) :
    verify_signature secret payload (some ("sha1=".toList ++ hex))
      = decide (hexdigest (hmacSha1 secret payload) = hex) := by
  have hsec : secret.isEmpty = false := by simp [List.isEmpty_iff, hs]
  unfold verify_signature
  rw [hsec]
  simp only [Bool.false_eq_true, if_false]
  have hne : ("sha1=".toList ++ hex).isEmpty = false := rfl
  rw [hne]
  simp only [Bool.false_eq_true, if_false]
  rw [split_sha1_header hex hh]
  simp

/-- The ordinal-suffix rule as the spec words it: days 11–13 get `"th"`,
otherwise the suffix is decided by `day % 10` (1 → `"st"`, 2 → `"nd"`,
3 → `"rd"`, anything else → `"th"`). -/
def specSuffix (day : Nat) : String :=
  if 11 ≤ day ∧ day ≤ 13 then "th"
  else if day % 10 = 1 then "st"
  else if day % 10 = 2 then "nd"
  else if day % 10 = 3 then "rd"
  else "th"

theorem ordSuffix_eq_specSuffix (day : Nat) : ordSuffix day = specSuffix day := by
  unfold ordSuffix specSuffix
  by_cases hc : 11 ≤ day ∧ day ≤ 13
  · rw [if_pos hc, if_pos hc]
  · rw [if_neg hc, if_neg hc]
    generalize day % 10 = m
    rcases m with _|_|_|_|m <;> simp

theorem pushMsg_ne_empty (a b t : String) : pushMsg a b t ≠ "" := by
  intro h
  have hl := congrArg String.length h
  simp only [pushMsg, String.length_append] at hl
  have h1 : ("\"" : String).length = 1 := rfl
  have h0 : ("" : String).length = 0 := rfl
  omega

theorem openedMsg_ne_empty (a f t s : String) : openedMsg a f t s ≠ "" := by
  intro h
  have hl := congrArg String.length h
  simp only [openedMsg, String.length_append] at hl
  have h1 : ("\"" : String).length = 1 := rfl
  have h0 : ("" : String).length = 0 := rfl
  omega

theorem mergedMsg_ne_empty (a f t s : String) : mergedMsg a f t s ≠ "" := by
  intro h
  have hl := congrArg String.length h
  simp only [mergedMsg, String.length_append] at hl
  have h1 : ("\"" : String).length = 1 := rfl
  have h0 : ("" : String).length = 0 := rfl
  omega

/-- An aware datetime ignores the host offset in `astimezone`. -/
theorem toUTCparts_aware (dt : PyDatetime) (o : Int) (h : dt.offset = some o)
    (l1 l2 : Int) : toUTCparts dt l1 = toUTCparts dt l2 := by
  simp [toUTCparts, h]

/-- The spec's normalizer output for a parsed (aware) datetime, written from
§4.2's words: convert the instant to UTC, then render
`{day}{ordinalSuffix} {FullMonthName} {Year} - {hh}:{mm} {AM|PM} UTC` with a
zero-padded 12-hour hour and zero-padded minute. -/
def specNormalize (dt : PyDatetime) : String :=
  let (y, mo, d, h, mi) := toUTCparts dt 0
  toString d ++ specSuffix d ++ " " ++ monthName mo ++ " " ++ toString y
    ++ " - " ++ pad2 (if h % 12 = 0 then 12 else h % 12) ++ ":" ++ pad2 mi
    ++ " " ++ (if h < 12 then "AM" else "PM") ++ " UTC"

/-- Agreement of `format_timestamp` with the spec's rendering on every timestamp
that parses to an aware datetime, for every host offset. -/
theorem format_timestamp_spec (s : List Char) (dt : PyDatetime) (o : Int)
    (l : Int) (hp : fromisoformat (fixZ s) = some dt) (ho : dt.offset = some o) :
    format_timestamp l s = some (specNormalize dt) := by
  unfold format_timestamp specNormalize
  rw [hp]
  dsimp only
  rw [toUTCparts_aware dt o ho l 0]
  rcases he : toUTCparts dt 0 with ⟨y, mo, d, h, mi⟩
  dsimp only
  simp [strftimeRest, ordSuffix_eq_specSuffix, String.append_assoc]

/-- With a passing signature, the `push` route is exactly: extract, catch
only `KeyError` as an ignore, format, store. -/
theorem handle_webhook_push (secret : List Nat) (off : Int) (body : List Nat)
    (sig : Option (List Char)) (payload : Json)
    (hv : verify_signature secret body sig = true) :
    handle_webhook secret off body sig (some "push") (some payload) =
      match pushExtract payload with
      | .error .keyError => .ignoredKeyError
      | .error e => .uncaught e
      | .ok (author, branch, tsv) =>
        match tsFormat off tsv with
        | none => .errorFormatting
        | some t => .stored (pushMsg (pyFormatVal author) branch t) := by
  unfold handle_webhook
  rw [hv]
  rfl

/-- With a passing signature, the `pull_request` route is exactly the
action dispatch of the source. -/
theorem handle_webhook_pull (secret : List Nat) (off : Int) (body : List Nat)
    (sig : Option (List Char)) (payload : Json)
    (hv : verify_signature secret body sig = true) :
    handle_webhook secret off body sig (some "pull_request") (some payload) =
      match pyGet payload "action" (.jstr "") with
      | .error e => .uncaught e
      | .ok action =>
        match pyGet payload "pull_request" (.jobj []) with
        | .error e => .uncaught e
        | .ok pr =>
          if jEqStr action "opened" then
            match prExtract pr "created_at" with
            | .error .keyError => .ignoredKeyError
            | .error e => .uncaught e
            | .ok (author, fromB, toB, tsv) =>
              match tsFormat off tsv with
              | none => .errorFormatting
              | some t =>
                .stored (openedMsg (pyFormatVal author) (pyFormatVal fromB)
                  (pyFormatVal toB) t)
          else if jEqStr action "closed" then
            match pyGet pr "merged" (.jbool false) with
            | .error e => .uncaught e
            | .ok merged =>
              if pyTruthy merged then
                match prExtract pr "merged_at" with
                | .error .keyError => .ignoredKeyError
                | .error e => .uncaught e
                | .ok (author, fromB, toB, tsv) =>
                  match tsFormat off tsv with
                  | none => .errorFormatting
                  | some t =>
                    .stored (mergedMsg (pyFormatVal author) (pyFormatVal fromB)
                      (pyFormatVal toB) t)
              else .ignoredPullAction
          else .ignoredPullAction := by
  unfold handle_webhook
  rw [hv]
  rfl

/-- A successful dict `.get` means the receiver is a dict, so every other
`.get` on it succeeds too. -/
theorem pyGet_ok_any (payload : Json) (k : String) (d x : Json)
    (h : pyGet payload k d = .ok x) (k1 : String) (d1 : Json) :
    ∃ y, pyGet payload k1 d1 = .ok y := by
  cases payload <;> simp [pyGet] at h ⊢

/-! ## The claims -/

/-- C1.  For every payload byte string and non-empty secret,
`verify_signature` accepts exactly the header `"sha1="` followed by the hex
digest of HMAC-SHA1(secret, payload): it returns true on the matching
digest, and false on every well-formed `sha1=<hex>` header (a digest
holding no `'='`) whose digest differs — in particular any mutation of the
digest, or any mutation of the body that changes the HMAC value, flips the
comparison to false. -/
theorem c1_signature_exact_match (secret payload : List Nat) (hs : secret ≠ []) :
    verify_signature secret payload
      (some ("sha1=".toList ++ hexdigest (hmacSha1 secret payload))) = true
    ∧ ∀ hex : List Char, '=' ∉ hex →
        hex ≠ hexdigest (hmacSha1 secret payload) →
        verify_signature secret payload (some ("sha1=".toList ++ hex)) = false := by
  constructor
  · rw [verify_signature_eval secret payload _ hs (hexdigest_no_eq _)]
    simp
  · intro hex hne hdiff
    rw [verify_signature_eval secret payload hex hs hne]
    exact decide_eq_false fun h => hdiff h.symm

theorem c1_signature_exact_match_witness :
    verify_signature [107] [104, 105]
      (some ("sha1=".toList ++ hexdigest (hmacSha1 [107] [104, 105]))) = true
    ∧ verify_signature [107] [104, 105]
        (some ("sha1=".toList ++ "00".toList)) = false :=
  ⟨(c1_signature_exact_match [107] [104, 105] (by decide)).1,
   (c1_signature_exact_match [107] [104, 105] (by decide)).2
     "00".toList (by decide) (by decide)⟩

/-- C2.  With an empty configured secret, verification passes for every
payload and every header (present, empty or absent); and for every secret —
non-empty ones included — it passes whenever the header is absent. -/
theorem c2_permissive_skip :
    (∀ (payload : List Nat) (sig : Option (List Char)),
        verify_signature [] payload sig = true)
    ∧ ∀ (secret payload : List Nat),
        verify_signature secret payload none = true := by
  constructor
  · intro payload sig
    rfl
  · intro secret payload
    unfold verify_signature
    split <;> rfl

/-- C3.  A `push` delivery whose payload yields `pusher.name`, a string
`ref` and `head_commit.timestamp` with a formattable timestamp is stored as
exactly `"{author}" pushed to "{branch}" on {ts}` with the branch the last
`/`-segment of `ref`; and a `push` delivery whose required-field extraction
raises `KeyError` is answered with the ignored-key-error status, storing
nothing. -/
theorem c3_push_classification (secret : List Nat) (off : Int) (body : List Nat)
    (sig : Option (List Char)) (payload : Json)
    (hv : verify_signature secret body sig = true) :
    (∀ (pusher hc : Json) (author refStr ts t : String),
        pyGetItem payload "pusher" = .ok pusher →
        pyGetItem pusher "name" = .ok (.jstr author) →
        pyGetItem payload "ref" = .ok (.jstr refStr) →
        pyGetItem payload "head_commit" = .ok hc →
        pyGetItem hc "timestamp" = .ok (.jstr ts) →
        format_timestamp off ts.toList = some t →
        handle_webhook secret off body sig (some "push") (some payload)
          = .stored ("\"" ++ author ++ "\" pushed to \"" ++ lastSegment refStr
              ++ "\" on " ++ t))
    ∧ (pushExtract payload = .error .keyError →
        handle_webhook secret off body sig (some "push") (some payload)
          = .ignoredKeyError) := by
  constructor
  · intro pusher hc author refStr ts t h1 h2 h3 h4 h5 h6
    have hex : pushExtract payload
        = .ok (.jstr author, lastSegment refStr, .jstr ts) := by
      simp only [pushExtract, h1, h2, h3, h4, h5]
    rw [handle_webhook_push secret off body sig payload hv, hex]
    dsimp only [tsFormat, pyFormatVal]
    rw [h6]
    rfl
  · intro hex
    rw [handle_webhook_push secret off body sig payload hv, hex]

theorem c3_push_classification_witness :
    handle_webhook [] 0 [] none (some "push") (some pushPayloadEx)
      = .stored ("\"" ++ "alice" ++ "\" pushed to \"" ++ lastSegment "refs/heads/main"
          ++ "\" on " ++ "1st April 2021 - 09:30 PM UTC")
    ∧ handle_webhook [] 0 [] none (some "push") (some (.jobj []))
      = .ignoredKeyError :=
  ⟨(c3_push_classification [] 0 [] none pushPayloadEx rfl).1
      (.jobj [("name", .jstr "alice")])
      (.jobj [("timestamp", .jstr "2021-04-01T21:30:00Z")])
      "alice" "refs/heads/main" "2021-04-01T21:30:00Z"
      "1st April 2021 - 09:30 PM UTC" rfl rfl rfl rfl rfl (by decide),
   (c3_push_classification [] 0 [] none (.jobj []) rfl).2 rfl⟩

/-- The `pull_request` object of `prPayloadMergedNum`. -/
def prMergedNumInner : Json :=
  .jobj [("merged", .jnum 1),
         ("user", .jobj [("login", .jstr "carol")]),
         ("head", .jobj [("ref", .jstr "feature")]),
         ("base", .jobj [("ref", .jstr "main")]),
         ("merged_at", .jstr "2021-04-02T12:00:00Z")]

/-- A pull-request payload with `action == "closed"` whose `merged` field is
the number `1` — truthy, but not the boolean `true`. -/
def prPayloadMergedNum : Json :=
  .jobj [("action", .jstr "closed"), ("pull_request", prMergedNumInner)]

/-- A pull-request payload with `action == "opened"` and all fields the
opened branch reads. -/
def prPayloadOpened : Json :=
  .jobj [("action", .jstr "opened"),
         ("pull_request", .jobj
           [("user", .jobj [("login", .jstr "dave")]),
            ("head", .jobj [("ref", .jstr "topic")]),
            ("base", .jobj [("ref", .jstr "main")]),
            ("created_at", .jstr "2021-04-01T09:00:00Z")])]

/-- C4 counterexample.  The claim reads `action == "closed"` with
`merged` not equal to `true` — and, literally, any action other than
`"closed"` — as ignored with nothing stored.  The code instead tests
`pr.get("merged", False)` for *truthiness*, so `merged: 1` is stored; and
`action == "opened"` has its own storing branch. -/
theorem c4_counterexample :
    handle_webhook [] 0 [] none (some "pull_request") (some prPayloadMergedNum)
      = .stored
          "\"carol\" merged branch \"feature\" to \"main\" on 2nd April 2021 - 12:00 PM UTC"
    ∧ handle_webhook [] 0 [] none (some "pull_request") (some prPayloadOpened)
      = .stored
          "\"dave\" submitted a pull request from \"topic\" to \"main\" on 1st April 2021 - 09:00 AM UTC" :=
  ⟨rfl, rfl⟩

/-- C4, amended.  A `closed` pull-request delivery with a *truthy* `merged`
value and extractable fields is stored as exactly
`"{author}" merged branch "{fromBranch}" to "{toBranch}" on {ts}`; a
`closed` delivery with a falsy `merged` (including an absent one, whose
default is `False`) is ignored; and a delivery whose action is neither
`"opened"` nor `"closed"` is ignored. -/
theorem c4_pull_request_amended (secret : List Nat) (off : Int) (body : List Nat)
    (sig : Option (List Char)) (payload : Json)
    (hv : verify_signature secret body sig = true) :
    (∀ (pr merged : Json) (author fromB toB ts t : String),
        pyGet payload "action" (.jstr "") = .ok (.jstr "closed") →
        pyGet payload "pull_request" (.jobj []) = .ok pr →
        pyGet pr "merged" (.jbool false) = .ok merged →
        pyTruthy merged = true →
        prExtract pr "merged_at"
          = .ok (.jstr author, .jstr fromB, .jstr toB, .jstr ts) →
        format_timestamp off ts.toList = some t →
        handle_webhook secret off body sig (some "pull_request") (some payload)
          = .stored ("\"" ++ author ++ "\" merged branch \"" ++ fromB
              ++ "\" to \"" ++ toB ++ "\" on " ++ t))
    ∧ (∀ pr merged : Json,
        pyGet payload "action" (.jstr "") = .ok (.jstr "closed") →
        pyGet payload "pull_request" (.jobj []) = .ok pr →
        pyGet pr "merged" (.jbool false) = .ok merged →
        pyTruthy merged = false →
        handle_webhook secret off body sig (some "pull_request") (some payload)
          = .ignoredPullAction)
    ∧ (∀ action : Json,
        pyGet payload "action" (.jstr "") = .ok action →
        jEqStr action "opened" = false →
        jEqStr action "closed" = false →
        handle_webhook secret off body sig (some "pull_request") (some payload)
          = .ignoredPullAction) := by
  refine ⟨?_, ?_, ?_⟩
  · intro pr merged author fromB toB ts t ha hp hm htr hex hts
    rw [handle_webhook_pull secret off body sig payload hv, ha]
    dsimp only
    rw [hp]
    dsimp only
    rw [if_neg (show ¬ jEqStr (Json.jstr "closed") "opened" = true by decide)]
    rw [if_pos (show jEqStr (Json.jstr "closed") "closed" = true from rfl)]
    rw [hm]
    dsimp only
    rw [if_pos htr, hex]
    dsimp only [tsFormat, pyFormatVal]
    rw [hts]
    rfl
  · intro pr merged ha hp hm htr
    rw [handle_webhook_pull secret off body sig payload hv, ha]
    dsimp only
    rw [hp]
    dsimp only
    rw [if_neg (show ¬ jEqStr (Json.jstr "closed") "opened" = true by decide)]
    rw [if_pos (show jEqStr (Json.jstr "closed") "closed" = true from rfl)]
    rw [hm]
    dsimp only
    rw [if_neg (by simp [htr])]
  · intro action ha ho hc
    obtain ⟨pr, hp⟩ :=
      pyGet_ok_any payload "action" (.jstr "") action ha "pull_request" (.jobj [])
    rw [handle_webhook_pull secret off body sig payload hv, ha]
    dsimp only
    rw [hp]
    dsimp only
    rw [if_neg (by simp [ho]), if_neg (by simp [hc])]

theorem c4_pull_request_amended_witness :
    handle_webhook [] 0 [] none (some "pull_request") (some prPayloadMergedNum)
      = .stored ("\"" ++ "carol" ++ "\" merged branch \"" ++ "feature"
          ++ "\" to \"" ++ "main" ++ "\" on " ++ "2nd April 2021 - 12:00 PM UTC") :=
  (c4_pull_request_amended [] 0 [] none prPayloadMergedNum rfl).1
    prMergedNumInner (.jnum 1) "carol" "feature" "main" "2021-04-02T12:00:00Z"
    "2nd April 2021 - 12:00 PM UTC" rfl rfl rfl rfl rfl (by decide)

/-- C5.  Every timestamp parsing to an aware datetime (a trailing `Z`
becomes the `+00:00` offset before parsing; otherwise an explicit numeric
offset was parsed) is rendered as the spec's
`{day}{ordinalSuffix} {FullMonthName} {Year} - {hh}:{mm} {AM|PM} UTC` of the
UTC instant, independently of the host timezone; in particular the two
worked examples, the second converting `+05:30` to 07:35 AM UTC on the same
day. -/
theorem c5_normalizer_utc_format :
    (∀ (s : List Char) (dt : PyDatetime) (o l1 l2 : Int),
        fromisoformat (fixZ s) = some dt → dt.offset = some o →
        format_timestamp l1 s = some (specNormalize dt)
          ∧ format_timestamp l1 s = format_timestamp l2 s)
    ∧ (∀ l : Int, format_timestamp l "2025-06-05T01:15:53Z".toList
        = some "5th June 2025 - 01:15 AM UTC")
    ∧ ∀ l : Int, format_timestamp l "2025-01-21T13:05:00+05:30".toList
        = some "21st January 2025 - 07:35 AM UTC" := by
  refine ⟨fun s dt o l1 l2 hp ho =>
    ⟨format_timestamp_spec s dt o l1 hp ho,
     (format_timestamp_spec s dt o l1 hp ho).trans
       (format_timestamp_spec s dt o l2 hp ho).symm⟩, fun l => ?_, fun l => ?_⟩
  · rw [format_timestamp_spec _ ⟨2025, 6, 5, 1, 15, 53, some 0⟩ 0 l (by decide) rfl]
    decide
  · rw [format_timestamp_spec _ ⟨2025, 1, 21, 13, 5, 0, some 330⟩ 330 l (by decide) rfl]
    decide

theorem c5_normalizer_utc_format_witness :
    format_timestamp 60 "2021-04-01T21:30:00Z".toList
      = some (specNormalize ⟨2021, 4, 1, 21, 30, 0, some 0⟩)
    ∧ format_timestamp 60 "2021-04-01T21:30:00Z".toList
      = format_timestamp (-60) "2021-04-01T21:30:00Z".toList :=
  c5_normalizer_utc_format.1 _ ⟨2021, 4, 1, 21, 30, 0, some 0⟩ 0 60 (-60)
    (by decide) rfl

/-- C6.  For every day of month 1–31 the normalizer's suffix follows the
spec's rule — `"th"` for 11–13, otherwise `"st"`/`"nd"`/`"rd"`/`"th"` by
`day % 10` — and the rendered day reads `1st`, `11th`, `12th`, `13th`,
`21st`, `22nd`, `23rd`, `24th`. -/
theorem c6_ordinal_suffix :
    (∀ d : Nat, 1 ≤ d → d ≤ 31 → ordSuffix d = specSuffix d)
    ∧ toString 1 ++ ordSuffix 1 = "1st" ∧ toString 11 ++ ordSuffix 11 = "11th"
    ∧ toString 12 ++ ordSuffix 12 = "12th" ∧ toString 13 ++ ordSuffix 13 = "13th"
    ∧ toString 21 ++ ordSuffix 21 = "21st" ∧ toString 22 ++ ordSuffix 22 = "22nd"
    ∧ toString 23 ++ ordSuffix 23 = "23rd" ∧ toString 24 ++ ordSuffix 24 = "24th" := by
  refine ⟨fun d _ _ => ordSuffix_eq_specSuffix d, ?_, ?_, ?_, ?_, ?_, ?_, ?_, ?_⟩
    <;> decide

theorem c6_ordinal_suffix_witness : ordSuffix 21 = specSuffix 21 :=
  c6_ordinal_suffix.1 21 (by decide) (by decide)

/-- A header that is not of the `sha1=<hexDigest>` form: its `"="`-split is
not a two-element `[tag, digest]`, or the tag is not `"sha1"`. -/
def headerMalformedB (hdr : List Char) : Bool :=
  match splitOnChar '=' hdr with
  | [tag, _] => decide (tag ≠ "sha1".toList)
  | _ => true

/-- C7 counterexample.  An empty-valued header is present yet falsy, and the
`not signature_header` guard accepts it: with a non-empty secret and the
present, malformed (no `"="`) header `""`, `verify_signature` returns true,
where the claim requires false. -/
theorem c7_counterexample :
    headerMalformedB [] = true ∧ ([107] : List Nat) ≠ []
      ∧ verify_signature [107] [] (some []) = true := by
  decide

/-- C7, amended.  For every non-empty secret and every present *non-empty*
header not of the form `sha1=<hexDigest>` — no `"="`, a split other than
exactly two pieces, or a tag other than `"sha1"` — verification returns
false (exceptions are modelled as values; the `ValueError` of the failed
unpacking is caught by the source and becomes this false). -/
theorem c7_malformed_header_amended (secret payload : List Nat) (hdr : List Char)
    (hs : secret ≠ []) (hne : hdr ≠ []) (hm : headerMalformedB hdr = true) :
    verify_signature secret payload (some hdr) = false := by
  have hsec : secret.isEmpty = false := by simp [List.isEmpty_iff, hs]
  have hhdr : hdr.isEmpty = false := by simp [List.isEmpty_iff, hne]
  unfold verify_signature
  rw [hsec]
  simp only [Bool.false_eq_true, if_false]
  rw [hhdr]
  simp only [Bool.false_eq_true, if_false]
  unfold headerMalformedB at hm
  rcases hsp : splitOnChar '=' hdr with _ | ⟨a, _ | ⟨b, _ | ⟨c, rest⟩⟩⟩ <;>
    rw [hsp] at hm
  all_goals
    show (if a = "sha1".toList
        then decide (hexdigest (hmacSha1 secret payload) = b) else false) = false
  all_goals rw [if_neg (of_decide_eq_true hm)]

theorem c7_malformed_header_amended_witness :
    verify_signature [107] [1, 2] (some "md5=abc".toList) = false :=
  c7_malformed_header_amended [107] [1, 2] "md5=abc".toList (by decide)
    (by decide) (by decide)

/-- The store invariant: a stored outcome carries a non-empty `formatted`. -/
def storedNonempty : WebhookResult → Prop
  | .stored f => f ≠ ""
  | _ => True

set_option maxHeartbeats 2000000 in
/-- C8.  On every delivery, the single insert happens only after a
successful classification-plus-formatting step, and the inserted record's
`formatted` field is never empty. -/
theorem c8_store_invariant (secret : List Nat) (off : Int) (body : List Nat)
    (sig : Option (List Char)) (eventHeader : Option String)
    (payload : Option Json) :
    storedNonempty (handle_webhook secret off body sig eventHeader payload) := by
  unfold handle_webhook
  repeat' split
  all_goals first
    | trivial
    | exact pushMsg_ne_empty _ _ _
    | exact openedMsg_ne_empty _ _ _ _
    | exact mergedMsg_ne_empty _ _ _ _

/-- A push payload whose `pusher` exists but is a string, not a mapping. -/
def pushPayloadBadPusher : Json :=
  .jobj [("pusher", .jstr "alice"), ("ref", .jstr "refs/heads/main"),
         ("head_commit", .jobj [("timestamp", .jstr "2021-04-01T21:30:00Z")])]

/-- A push payload whose `ref` exists but is a number, not a string. -/
def pushPayloadBadRef : Json :=
  .jobj [("pusher", .jobj [("name", .jstr "alice")]), ("ref", .jnum 5),
         ("head_commit", .jobj [("timestamp", .jstr "2021-04-01T21:30:00Z")])]

/-- C9.  Push deliveries in which every required field path exists but an
intermediate value has the wrong type bypass the `except KeyError` ignore:
`payload["pusher"]` a string raises `TypeError` at `["name"]`, a
non-string `ref` raises `AttributeError` at `.split`, and both escape the
handler rather than yielding the ignored-key-error response. -/
theorem c9_wrong_type_uncaught :
    handle_webhook [] 0 [] none (some "push") (some pushPayloadBadPusher)
      = .uncaught .typeError
    ∧ handle_webhook [] 0 [] none (some "push") (some pushPayloadBadRef)
      = .uncaught .attributeError
    ∧ WebhookResult.uncaught .typeError ≠ WebhookResult.ignoredKeyError
    ∧ WebhookResult.uncaught .attributeError ≠ WebhookResult.ignoredKeyError :=
  ⟨rfl, rfl, by decide, by decide⟩

/-- C10.  A syntactically valid timestamp with neither `Z` nor an offset
parses to a naive datetime and does not fail; `astimezone` then interprets
it in the host timezone, so the output depends on the host offset: 0 and
-330 minutes yield different strings for the same input. -/
theorem c10_naive_local_dependence :
    format_timestamp 0 "2025-06-05T01:15:53".toList
      = some "5th June 2025 - 01:15 AM UTC"
    ∧ format_timestamp (-330) "2025-06-05T01:15:53".toList
      = some "5th June 2025 - 06:45 AM UTC"
    ∧ format_timestamp 0 "2025-06-05T01:15:53".toList
        ≠ format_timestamp (-330) "2025-06-05T01:15:53".toList
    ∧ (fromisoformat "2025-06-05T01:15:53".toList).map PyDatetime.offset
        = some none := by
  decide
